import Mathlib

/-! Verification development for the market-series synchronization engine of the
gold open-interest analyzer. The definitions below are shallow embeddings of the
TypeScript source: prices are rationals, timestamps are integers (epoch
milliseconds), the uniform draws of `Math.random()` are explicit stream
parameters, and the asynchronous refresh machinery is an explicit step relation
on an application-state record. -/

namespace MarketSeries

/-- A single market data point, following `MarketDataPoint` in `types.ts`. -/
structure MarketDataPoint where
  timestamp : Int
  timeLabel : String
  spotPrice : Rat
  futurePrice : Rat
  openInterest : Int
  volume : Int
deriving DecidableEq

/-- JS `parseFloat(x.toFixed(2))`: rounding to two decimal places. -/
def round2 (q : Rat) : Rat := (round (q * 100) : Int) / 100

/-- One history point rewritten by the live-refresh reconciliation in
`App.tsx` (`fetchLiveValues`): the point is spread and its `spotPrice` and
`futurePrice` are replaced by their shifted, 2-decimal-rounded values; all the
other fields are kept. -/
def adjustPoint (d : Rat) (p : MarketDataPoint) : MarketDataPoint :=
  { p with spotPrice := round2 (p.spotPrice + d), futurePrice := round2 (p.futurePrice + d) }

/-- The offset `dataPoint.spotPrice - prev[prev.length - 1].spotPrice`
(`priceDiff` in `fetchLiveValues`). -/
def priceOffset (prev : List MarketDataPoint) (dp : MarketDataPoint) : Rat :=
  match prev.getLast? with
  | some lastSimulated => dp.spotPrice - lastSimulated.spotPrice
  | none => 0

/-- The `adjustedHistory` computed by `fetchLiveValues`: every stored point is
shifted by the price offset. -/
def adjustHistory (prev : List MarketDataPoint) (dp : MarketDataPoint) : List MarketDataPoint :=
  prev.map (adjustPoint (priceOffset prev dp))

/-- The append pattern `[...prev.slice(1), pt]` used by both the simulation loop
and the live refresh in `App.tsx`: drop the oldest point, append the new one. -/
def slideAppend (prev : List MarketDataPoint) (pt : MarketDataPoint) : List MarketDataPoint :=
  prev.drop 1 ++ [pt]

/-- The full live-refresh reconciliation `[...adjustedHistory.slice(1), dataPoint]`. -/
def reconcile (prev : List MarketDataPoint) (dp : MarketDataPoint) : List MarketDataPoint :=
  slideAppend (adjustHistory prev dp) dp

/-- Concrete sample point used in witnesses and counterexamples. -/
def p0 : MarketDataPoint :=
  { timestamp := 0, timeLabel := "00:00", spotPrice := 100, futurePrice := 112,
    openInterest := 1000, volume := 10 }

/-- Concrete sample point used in witnesses and counterexamples. -/
def p1 : MarketDataPoint :=
  { timestamp := 900000, timeLabel := "00:15", spotPrice := 102, futurePrice := 114,
    openInterest := 1100, volume := 12 }

/-- Concrete sample point used in witnesses and counterexamples. -/
def p2 : MarketDataPoint :=
  { timestamp := 1800000, timeLabel := "00:30", spotPrice := 101, futurePrice := 113,
    openInterest := 1050, volume := 11 }

/-- Concrete authoritative live point used in witnesses and counterexamples. -/
def dpLive : MarketDataPoint :=
  { timestamp := 2700000, timeLabel := "00:45", spotPrice := 150, futurePrice := 162,
    openInterest := 1200, volume := 20 }

/-- Two-decimal rounding moves a rational by at most `1/200`. -/
theorem round2_close (q : Rat) : |round2 q - q| ≤ 1 / 200 := by
  have h : |q * 100 - (round (q * 100) : Int)| ≤ 1 / 2 := abs_sub_round (q * 100)
  have h' : |((round (q * 100) : Int) : Rat) - q * 100| ≤ 1 / 2 := by
    rw [abs_sub_comm]; exact h
  have hq : round2 q - q = (((round (q * 100) : Int) : Rat) - q * 100) / 100 := by
    unfold round2; ring
  rw [hq, abs_div]
  have h100 : |(100 : Rat)| = 100 := by norm_num
  rw [h100]
  linarith

/-- Dropping commutes with mapping. -/
theorem drop_comm_map {α β : Type} (f : α → β) :
    ∀ (l : List α) (n : Nat), (l.map f).drop n = (l.drop n).map f := by
  intro l
  induction l with
  | nil => intro n; simp
  | cons x l ih =>
    intro n
    cases n with
    | zero => simp
    | succ n =>
      simp only [List.map_cons, List.drop_succ_cons]
      exact ih n

/-- #C1: one live-refresh reconciliation of a nonempty stored series against an
authoritative point preserves the length, stores the authoritative point as the
exact final point, and shifts every surviving historical point by the offset
`Q - P`, each shifted price within `1/100` of `original + (Q - P)`. -/
theorem claim1_reconcile_shifts_history (prev : List MarketDataPoint)
    (dp lastSim : MarketDataPoint) (hP : prev.getLast? = some lastSim) :
    (reconcile prev dp).length = prev.length
    ∧ (reconcile prev dp).getLast? = some dp
    ∧ reconcile prev dp
        = (prev.drop 1).map (adjustPoint (dp.spotPrice - lastSim.spotPrice)) ++ [dp]
    ∧ ∀ p ∈ prev,
        |(adjustPoint (dp.spotPrice - lastSim.spotPrice) p).spotPrice
          - (p.spotPrice + (dp.spotPrice - lastSim.spotPrice))| ≤ 1 / 100 := by
  have hne : prev ≠ [] := by
    intro h; rw [h] at hP; simp at hP
  have hoff : priceOffset prev dp = dp.spotPrice - lastSim.spotPrice := by
    unfold priceOffset; rw [hP]
  refine ⟨?_, ?_, ?_, ?_⟩
  · unfold reconcile slideAppend adjustHistory
    rw [List.length_append, List.length_drop, List.length_map]
    have : 1 ≤ prev.length := List.length_pos.mpr hne
    simp; omega
  · unfold reconcile slideAppend
    exact List.getLast?_concat _
  · unfold reconcile slideAppend adjustHistory
    rw [hoff, drop_comm_map]
  · intro p _
    have h1 : (adjustPoint (dp.spotPrice - lastSim.spotPrice) p).spotPrice
        = round2 (p.spotPrice + (dp.spotPrice - lastSim.spotPrice)) := rfl
    rw [h1]
    calc |round2 (p.spotPrice + (dp.spotPrice - lastSim.spotPrice))
            - (p.spotPrice + (dp.spotPrice - lastSim.spotPrice))| ≤ 1 / 200 :=
          round2_close _
      _ ≤ 1 / 100 := by norm_num

/-- #C1 witness: the reconciliation property evaluated on a concrete two-point
history and a concrete authoritative point. -/
theorem claim1_witness :
    (reconcile [p0, p1] dpLive).length = ([p0, p1] : List MarketDataPoint).length
    ∧ (reconcile [p0, p1] dpLive).getLast? = some dpLive
    ∧ reconcile [p0, p1] dpLive
        = (([p0, p1] : List MarketDataPoint).drop 1).map
            (adjustPoint (dpLive.spotPrice - p1.spotPrice)) ++ [dpLive]
    ∧ ∀ p ∈ ([p0, p1] : List MarketDataPoint),
        |(adjustPoint (dpLive.spotPrice - p1.spotPrice) p).spotPrice
          - (p.spotPrice + (dpLive.spotPrice - p1.spotPrice))| ≤ 1 / 100 :=
  claim1_reconcile_shifts_history [p0, p1] dpLive p1 (by decide)

/-- #C9: the history adjustment rewrites only the two price fields: it is a
pointwise map in which every surviving point keeps its timestamp, time label,
open interest and volume, and the reconciled series minus its appended tail is
exactly the adjusted history minus its evicted head. -/
theorem claim9_frame_adjust_history (prev : List MarketDataPoint) (dp : MarketDataPoint) :
    List.Forall₂ (fun p q => q.timestamp = p.timestamp ∧ q.timeLabel = p.timeLabel
        ∧ q.openInterest = p.openInterest ∧ q.volume = p.volume)
      prev (adjustHistory prev dp)
    ∧ (reconcile prev dp).dropLast = (adjustHistory prev dp).drop 1 := by
  constructor
  · unfold adjustHistory
    rw [List.forall₂_map_right_iff]
    rw [List.forall₂_same]
    intro p _
    exact ⟨rfl, rfl, rfl, rfl⟩
  · unfold reconcile slideAppend
    exact List.dropLast_concat

/-- #C4 counterexample: appending to a series strictly below capacity (length 1,
capacity 50) does not grow it by one: the source's append always drops the
oldest point first. -/
theorem claim4_counterexample :
    ([p0] : List MarketDataPoint).length < 50
    ∧ (slideAppend [p0] p1).length ≠ ([p0] : List MarketDataPoint).length + 1
    ∧ slideAppend [p0] p1 = [p1] := by decide

/-- For a nonempty seed, folding the source's slide-append over a list of new
points yields the last `s.length` points of the arrival sequence. -/
theorem slideAppend_foldl (ps : List MarketDataPoint) :
    ∀ s : List MarketDataPoint, s ≠ [] →
      List.foldl slideAppend s ps = (s ++ ps).drop ps.length := by
  induction ps with
  | nil => intro s _; simp
  | cons a ps ih =>
    intro s hs
    have hs1 : slideAppend s a ≠ [] := by simp [slideAppend]
    rw [List.foldl_cons, ih (slideAppend s a) hs1]
    have h2 : s ++ a :: ps = (s ++ [a]) ++ ps := by simp
    rw [h2]
    have h3 : ((s ++ [a]) ++ ps).drop (a :: ps).length
        = (((s ++ [a]) ++ ps).drop 1).drop ps.length := by
      rw [List.drop_drop]
      congr 1
      simp [Nat.add_comm]
    rw [h3]
    congr 1
    obtain ⟨x, s', rfl⟩ : ∃ x s', s = x :: s' := by
      cases s with
      | nil => exact absurd rfl hs
      | cons x s' => exact ⟨x, s', rfl⟩
    simp [slideAppend]

/-- #C4 amended: every append drops the oldest point regardless of capacity, so
the length of a nonempty series is invariant under append; consequently, after
any sequence of appends the stored series is the last `s.length` generated
points in arrival order (seeds included), and the length equals the seed
length, in particular `N = 50` when starting at capacity. -/
theorem claim4_amended_slide_append (s : List MarketDataPoint) (pt : MarketDataPoint)
    (ps : List MarketDataPoint) (h : s ≠ []) :
    (slideAppend s pt).length = s.length
    ∧ List.foldl slideAppend s ps = (s ++ ps).drop ps.length
    ∧ (List.foldl slideAppend s ps).length = s.length := by
  have hfold := slideAppend_foldl ps s h
  refine ⟨?_, hfold, ?_⟩
  · unfold slideAppend
    rw [List.length_append, List.length_drop]
    have : 1 ≤ s.length := List.length_pos.mpr h
    simp; omega
  · rw [hfold, List.length_drop, List.length_append]
    omega

/-- #C4 witness: the amended append property on a concrete one-point seed and
two appended points. -/
theorem claim4_witness :
    (slideAppend [p0] p1).length = ([p0] : List MarketDataPoint).length
    ∧ List.foldl slideAppend [p0] [p1, p2]
        = (([p0] : List MarketDataPoint) ++ [p1, p2]).drop ([p1, p2] : List MarketDataPoint).length
    ∧ (List.foldl slideAppend [p0] [p1, p2]).length = ([p0] : List MarketDataPoint).length :=
  claim4_amended_slide_append [p0] p1 [p1, p2] (by decide)

/-- The module-level mutable seeds of the simulator service (`lastSpot`,
`lastFuture`, `lastOI`). -/
structure GenState where
  lastSpot : Rat
  lastFuture : Rat
  lastOI : Rat
deriving DecidableEq

/-- Seeds at module load: `MOCK_START_PRICE = 2350`, `MOCK_START_PRICE + 15`
(contango) and `MOCK_START_OI = 450000`. -/
def initGenState : GenState :=
  { lastSpot := 2350, lastFuture := 2350 + 15, lastOI := 450000 }

/-- The open-interest bias of `generateHistoricalData`:
`(change > 1 ? 500 : change < -1 ? -500 : 0)`. -/
def oiBias (change : Rat) : Rat :=
  if change > 1 then 500 else if change < -1 then -500 else 0

/-- One iteration of the random walk in `generateHistoricalData`, with the three
uniform draws in `[0, 1)` made explicit: `change = (r1 - 0.5) * 5`,
`futurePremium = 12 + r2 * 5`, `oiChange = (r3 - 0.5) * 1000 + oiBias change`. -/
def genStep (st : GenState) (r1 r2 r3 : Rat) : GenState :=
  let change := (r1 - 1 / 2) * 5
  let futurePremium := 12 + r2 * 5
  { lastSpot := st.lastSpot + change
    lastFuture := st.lastSpot + change + futurePremium
    lastOI := st.lastOI + ((r3 - 1 / 2) * 1000 + oiBias change) }

/-- The point pushed at one iteration of `generateHistoricalData`: `k` is the
number of points still to be generated including this one, so the timestamp is
`now - k * 900000` (the source's `Date.now() - (count - i) * 900000`). -/
def mkHistPoint (st : GenState) (now : Int) (k : Nat) (label : String) (r4 : Rat) :
    MarketDataPoint :=
  { timestamp := now - (k : Int) * 900000
    timeLabel := label
    spotPrice := round2 st.lastSpot
    futurePrice := round2 st.lastFuture
    openInterest := ⌊st.lastOI⌋
    volume := ⌊r4 * 5000 + 1000⌋ }

/-- The generation loop of `generateHistoricalData`: `i` is the loop index (used
for the label and the random draws, four per iteration) and the second argument
is the number of points still to generate. -/
def genHistAux (now : Int) (r : Nat → Rat) (labels : Nat → String) :
    Nat → Nat → GenState → List MarketDataPoint
  | _, 0, _ => []
  | i, Nat.succ n, st =>
    let st1 := genStep st (r (4 * i)) (r (4 * i + 1)) (r (4 * i + 2))
    mkHistPoint st1 now (n + 1) (labels i) (r (4 * i + 3))
      :: genHistAux now r labels (i + 1) n st1

/-- `generateHistoricalData(count)` run against the load-time seeds, with the
random stream, the clock and the formatted time labels passed explicitly. -/
def generateHistoricalData (count : Nat) (now : Int) (r : Nat → Rat)
    (labels : Nat → String) : List MarketDataPoint :=
  genHistAux now r labels 0 count initGenState

/-- `fetchLatestDataPoint` of the simulator service, reading the last stored
point: `change = (r1 - 0.5) * 3`, `futurePremium = 12 + r2 * 4`,
`oiChange = (r3 - 0.5) * 500` (independent of `change`). -/
def fetchLatestDataPoint (lastPoint : MarketDataPoint) (nowTs : Int) (label : String)
    (r1 r2 r3 r4 : Rat) : MarketDataPoint :=
  let change := (r1 - 1 / 2) * 3
  let futurePremium := 12 + r2 * 4
  let oiChange := (r3 - 1 / 2) * 500
  let newSpot := lastPoint.spotPrice + change
  { timestamp := nowTs
    timeLabel := label
    spotPrice := round2 newSpot
    futurePrice := round2 (newSpot + futurePremium)
    openInterest := ⌊(lastPoint.openInterest : Rat) + oiChange⌋
    volume := ⌊r4 * 2000 + 500⌋ }

/-- The generation loop produces exactly as many points as requested. -/
theorem genHistAux_length (now : Int) (r : Nat → Rat) (labels : Nat → String) :
    ∀ (n i : Nat) (st : GenState), (genHistAux now r labels i n st).length = n := by
  intro n
  induction n with
  | zero => intro i st; rfl
  | succ n ih => intro i st; simp [genHistAux, ih]

/-- The first generated point carries timestamp `now - n * 900000` where `n` is
the number of points generated. -/
theorem genHistAux_head_ts (now : Int) (r : Nat → Rat) (labels : Nat → String) :
    ∀ (n i : Nat) (st : GenState) (p : MarketDataPoint),
      (genHistAux now r labels i (n + 1) st).head? = some p →
      p.timestamp = now - ((n : Int) + 1) * 900000 := by
  intro n i st p hp
  simp [genHistAux] at hp
  rw [← hp]
  simp [mkHistPoint]

/-- Consecutive generated timestamps are strictly increasing and spaced exactly
15 minutes (900000 ms) apart. -/
theorem genHistAux_chain (now : Int) (r : Nat → Rat) (labels : Nat → String) :
    ∀ (n i : Nat) (st : GenState),
      List.Chain' (fun a b => a.timestamp < b.timestamp ∧ b.timestamp = a.timestamp + 900000)
        (genHistAux now r labels i n st) := by
  intro n
  induction n with
  | zero => intro i st; simp [genHistAux]
  | succ n ih =>
    intro i st
    rw [genHistAux]
    rw [List.chain'_cons']
    refine ⟨?_, ih _ _⟩
    intro b hb
    have hts := genHistAux_head_ts now r labels
    cases n with
    | zero => simp [genHistAux] at hb
    | succ m =>
      have hb' := hts m (i + 1) _ b (Option.mem_def.mp hb)
      rw [hb']
      constructor
      · simp only [mkHistPoint]
        push_cast
        linarith
      · simp only [mkHistPoint]
        push_cast
        ring

/-- The last generated point carries timestamp `now - 900000`: the series ends
one 15-minute interval before `now`. -/
theorem genHistAux_getLast_ts (now : Int) (r : Nat → Rat) (labels : Nat → String) :
    ∀ (n i : Nat) (st : GenState), ∃ p : MarketDataPoint,
      (genHistAux now r labels i (n + 1) st).getLast? = some p
      ∧ p.timestamp = now - 900000 := by
  intro n
  induction n with
  | zero =>
    intro i st
    refine ⟨mkHistPoint (genStep st (r (4 * i)) (r (4 * i + 1)) (r (4 * i + 2))) now 1
      (labels i) (r (4 * i + 3)), ?_, ?_⟩
    · rfl
    · simp [mkHistPoint]
  | succ n ih =>
    intro i st
    obtain ⟨p, hp, hts⟩ := ih (i + 1)
      (genStep st (r (4 * i)) (r (4 * i + 1)) (r (4 * i + 2)))
    refine ⟨p, ?_, hts⟩
    rw [genHistAux]
    rw [genHistAux] at hp ⊢
    rw [List.getLast?_cons_cons]
    exact hp

/-- A single random-walk step moves the simulated spot price by at most 5/2. -/
theorem genStep_spot_move (st : GenState) (r1 r2 r3 : Rat)
    (h0 : 0 ≤ r1) (h1 : r1 < 1) :
    |(genStep st r1 r2 r3).lastSpot - st.lastSpot| ≤ 5 / 2 := by
  have : (genStep st r1 r2 r3).lastSpot - st.lastSpot = (r1 - 1 / 2) * 5 := by
    simp [genStep]
  rw [this]
  rw [abs_le]
  constructor <;> nlinarith

/-- Every generated point's stored spot price stays within `5/2` per remaining
step (plus rounding slack) of the spot seed at loop entry. -/
theorem genHistAux_spot_bound (now : Int) (r : Nat → Rat) (labels : Nat → String)
    (hr : ∀ k, 0 ≤ r k ∧ r k < 1) :
    ∀ (n i : Nat) (st : GenState), ∀ p ∈ genHistAux now r labels i n st,
      |p.spotPrice - st.lastSpot| ≤ (5 / 2) * n + 1 / 200 := by
  intro n
  induction n with
  | zero => intro i st p hp; simp [genHistAux] at hp
  | succ n ih =>
    intro i st p hp
    rw [genHistAux] at hp
    have hmove := genStep_spot_move st (r (4 * i)) (r (4 * i + 1)) (r (4 * i + 2))
      (hr (4 * i)).1 (hr (4 * i)).2
    rcases List.mem_cons.mp hp with hhead | htail
    · have hspot : p.spotPrice
          = round2 (genStep st (r (4 * i)) (r (4 * i + 1)) (r (4 * i + 2))).lastSpot := by
        rw [hhead]; rfl
      rw [hspot]
      have hclose := round2_close
        (genStep st (r (4 * i)) (r (4 * i + 1)) (r (4 * i + 2))).lastSpot
      have htri := abs_sub_le
        (round2 (genStep st (r (4 * i)) (r (4 * i + 1)) (r (4 * i + 2))).lastSpot)
        (genStep st (r (4 * i)) (r (4 * i + 1)) (r (4 * i + 2))).lastSpot
        st.lastSpot
      have hn : (0 : Rat) ≤ (5 / 2) * n := by positivity
      push_cast
      push_cast at htri hclose hmove ⊢
      nlinarith
    · have hrec := ih (i + 1) _ p htail
      have htri := abs_sub_le p.spotPrice
        (genStep st (r (4 * i)) (r (4 * i + 1)) (r (4 * i + 2))).lastSpot
        st.lastSpot
      push_cast
      push_cast at htri hrec hmove
      nlinarith

/-- #C7 amended: `generateHistoricalData(count)` produces `count` points from
the fixed seeds `primaryPrice = 2350`, `openInterest = 450000`, with strictly
increasing timestamps spaced exactly 15 minutes apart and ending one interval
(15 minutes) before `now`; for `count = 5` every point's (hence the final
point's) spot price lies within `[2350 - 25, 2350 + 25]` under the per-step
delta bound of `±5/2`. -/
theorem claim7_amended_bootstrap (count : Nat) (now : Int) (r : Nat → Rat)
    (labels : Nat → String) (hr : ∀ k, 0 ≤ r k ∧ r k < 1) :
    (generateHistoricalData count now r labels).length = count
    ∧ initGenState.lastSpot = 2350 ∧ initGenState.lastOI = 450000
    ∧ List.Chain' (fun a b => a.timestamp < b.timestamp ∧ b.timestamp = a.timestamp + 900000)
        (generateHistoricalData count now r labels)
    ∧ (∀ p : MarketDataPoint, 0 < count →
        (generateHistoricalData count now r labels).getLast? = some p →
        p.timestamp = now - 900000)
    ∧ (count = 5 → ∀ p ∈ generateHistoricalData count now r labels,
        2350 - 25 ≤ p.spotPrice ∧ p.spotPrice ≤ 2350 + 25) := by
  refine ⟨genHistAux_length now r labels count 0 initGenState, rfl, rfl,
    genHistAux_chain now r labels count 0 initGenState, ?_, ?_⟩
  · intro p hc hlast
    obtain ⟨n, rfl⟩ : ∃ n, count = n + 1 := ⟨count - 1, by omega⟩
    obtain ⟨q, hq, hts⟩ := genHistAux_getLast_ts now r labels n 0 initGenState
    unfold generateHistoricalData at hlast
    rw [hq] at hlast
    injection hlast with h
    rw [← h]
    exact hts
  · rintro rfl p hp
    have hb := genHistAux_spot_bound now r labels hr 5 0 initGenState p hp
    have hseed : initGenState.lastSpot = 2350 := rfl
    rw [hseed] at hb
    rw [abs_le] at hb
    constructor <;> [linarith; linarith]

/-- #C7 witness: the bootstrap property evaluated at `count = 5` with the
constant random stream `1/2`. -/
theorem claim7_witness :
    (generateHistoricalData 5 10000000 (fun _ => 1 / 2) (fun _ => "t")).length = 5
    ∧ initGenState.lastSpot = 2350 ∧ initGenState.lastOI = 450000
    ∧ List.Chain' (fun a b => a.timestamp < b.timestamp ∧ b.timestamp = a.timestamp + 900000)
        (generateHistoricalData 5 10000000 (fun _ => 1 / 2) (fun _ => "t"))
    ∧ (∀ p : MarketDataPoint, 0 < 5 →
        (generateHistoricalData 5 10000000 (fun _ => 1 / 2) (fun _ => "t")).getLast? = some p →
        p.timestamp = 10000000 - 900000)
    ∧ (5 = 5 → ∀ p ∈ generateHistoricalData 5 10000000 (fun _ => 1 / 2) (fun _ => "t"),
        2350 - 25 ≤ p.spotPrice ∧ p.spotPrice ≤ 2350 + 25) :=
  claim7_amended_bootstrap 5 10000000 (fun _ => 1 / 2) (fun _ => "t")
    (fun _ => by norm_num)

/-- #C7 counterexample: the claim's "timestamps ... ending at now" fails: with
`count = 1` and clock `9000000`, the single (hence final) generated point
carries timestamp `8100000 = now - 900000`, not `now`. -/
theorem claim7_counterexample :
    ((generateHistoricalData 1 9000000 (fun _ => 1 / 2) (fun _ => "t")).getLast?).map
        (fun p => p.timestamp) = some 8100000
    ∧ (8100000 : Int) ≠ 9000000 := by
  constructor
  · rfl
  · decide

/-- #C8 amended: in `generateHistoricalData` the open-interest change is
correlated with the price delta (delta above 1 forces a change in `[0, 1000)`,
delta below -1 forces a change in `[-1000, 0)`, and small deltas yield the
unbiased term `(r3 - 1/2) * 1000` independent of the delta), while in the
per-tick generator `fetchLatestDataPoint` the stored open interest is entirely
independent of the price-delta draw `r1` and its change term `(r3 - 1/2) * 500`
is an unbiased draw in `[-250, 250)` for any delta. -/
theorem claim8_amended_oi_correlation :
    (∀ (st : GenState) (r1 r2 r3 : Rat), 0 ≤ r3 → r3 < 1 → (r1 - 1 / 2) * 5 > 1 →
      0 ≤ (genStep st r1 r2 r3).lastOI - st.lastOI
      ∧ (genStep st r1 r2 r3).lastOI - st.lastOI < 1000)
    ∧ (∀ (st : GenState) (r1 r2 r3 : Rat), 0 ≤ r3 → r3 < 1 → (r1 - 1 / 2) * 5 < -1 →
      -1000 ≤ (genStep st r1 r2 r3).lastOI - st.lastOI
      ∧ (genStep st r1 r2 r3).lastOI - st.lastOI < 0)
    ∧ (∀ (st : GenState) (r1 r2 r3 : Rat),
      -1 ≤ (r1 - 1 / 2) * 5 → (r1 - 1 / 2) * 5 ≤ 1 →
      (genStep st r1 r2 r3).lastOI - st.lastOI = (r3 - 1 / 2) * 1000)
    ∧ (∀ (lp : MarketDataPoint) (ts : Int) (lbl : String) (r1 r1' r2 r3 r4 : Rat),
      (fetchLatestDataPoint lp ts lbl r1 r2 r3 r4).openInterest
        = (fetchLatestDataPoint lp ts lbl r1' r2 r3 r4).openInterest)
    ∧ (∀ r3 : Rat, 0 ≤ r3 → r3 < 1 →
      -250 ≤ (r3 - 1 / 2) * 500 ∧ (r3 - 1 / 2) * 500 < 250) := by
  refine ⟨?_, ?_, ?_, ?_, ?_⟩
  · intro st r1 r2 r3 h0 h1 hc
    have hb : oiBias ((r1 - 1 / 2) * 5) = 500 := if_pos hc
    have : (genStep st r1 r2 r3).lastOI - st.lastOI
        = (r3 - 1 / 2) * 1000 + oiBias ((r1 - 1 / 2) * 5) := by
      simp [genStep]
    rw [this, hb]
    constructor <;> nlinarith
  · intro st r1 r2 r3 h0 h1 hc
    have hb : oiBias ((r1 - 1 / 2) * 5) = -500 := by
      unfold oiBias
      rw [if_neg (by linarith), if_pos hc]
    have : (genStep st r1 r2 r3).lastOI - st.lastOI
        = (r3 - 1 / 2) * 1000 + oiBias ((r1 - 1 / 2) * 5) := by
      simp [genStep]
    rw [this, hb]
    constructor <;> nlinarith
  · intro st r1 r2 r3 hlo hhi
    have hb : oiBias ((r1 - 1 / 2) * 5) = 0 := by
      unfold oiBias
      rw [if_neg (by linarith), if_neg (by linarith)]
    have : (genStep st r1 r2 r3).lastOI - st.lastOI
        = (r3 - 1 / 2) * 1000 + oiBias ((r1 - 1 / 2) * 5) := by
      simp [genStep]
    rw [this, hb, add_zero]
  · intro lp ts lbl r1 r1' r2 r3 r4
    rfl
  · intro r3 h0 h1
    constructor <;> nlinarith

/-- #C8 witness: the bootstrap correlation applied at a delta draw of `9/10`
(price delta `2 > 1`) and the unbiased draw `0`: the open-interest change is
`0`, hence nonnegative and below `1000`. -/
theorem claim8_witness :
    0 ≤ (genStep initGenState (9 / 10) 0 0).lastOI - initGenState.lastOI
    ∧ (genStep initGenState (9 / 10) 0 0).lastOI - initGenState.lastOI < 1000 :=
  claim8_amended_oi_correlation.1 initGenState (9 / 10) 0 0 (by norm_num)
    (by norm_num) (by norm_num)

/-- #C8 counterexample: the per-tick generator's open-interest change is not
correlated with the price delta: with draws giving a price delta of `6/5 > 1`
(large positive by the bootstrap generator's own threshold of 1) and `r3 = 0`,
the new open interest falls by 250; symmetrically a delta of `-6/5` with
`r3 = 9/10` raises it by 200. -/
theorem claim8_counterexample :
    (fetchLatestDataPoint p0 0 "x" (9 / 10) 0 0 0).spotPrice - p0.spotPrice > 1
    ∧ (fetchLatestDataPoint p0 0 "x" (9 / 10) 0 0 0).openInterest < p0.openInterest
    ∧ (fetchLatestDataPoint p0 0 "x" (1 / 10) 0 (9 / 10) 0).spotPrice - p0.spotPrice < -1
    ∧ (fetchLatestDataPoint p0 0 "x" (1 / 10) 0 (9 / 10) 0).openInterest > p0.openInterest := by
  refine ⟨?_, ?_, ?_, ?_⟩
  · norm_num [fetchLatestDataPoint, p0, round2, round_eq]
  · norm_num [fetchLatestDataPoint, p0]
  · norm_num [fetchLatestDataPoint, p0, round2, round_eq]
  · norm_num [fetchLatestDataPoint, p0]

/-- Market sentiment, as in `MarketAnalysis` of `types.ts`. -/
inductive Sentiment
  | BULLISH
  | BEARISH
  | NEUTRAL
deriving DecidableEq

/-- Trend classification, as in `MarketAnalysis` of `types.ts`. -/
inductive Trend
  | RISING
  | FALLING
  | STABLE
deriving DecidableEq

/-- A grounding citation `{title, uri}`. -/
structure SourceRef where
  title : String
  uri : String
deriving DecidableEq

/-- The analysis result record `MarketAnalysis` of `types.ts`. -/
structure MarketAnalysis where
  sentiment : Sentiment
  confidence : Rat
  summary : String
  recommendation : String
  basis : Rat
  oiTrend : Trend
  priceTrend : Trend
  support : String
  resistance : String
  sourceUrls : List SourceRef
deriving DecidableEq

/-- Outcome of the remote model call inside `analyzeMarketData`, pinned as an
environment parameter: the call may reject, resolve with no text, resolve with
text that fails `JSON.parse`, or resolve with a parsed analysis. -/
inductive AnalyzeEnv
  | throwsRemote
  | emptyText
  | malformedJson
  | returns (a : MarketAnalysis)
deriving DecidableEq

/-- The ways the modelled `analyzeMarketData` rejects to its caller. -/
inductive AnalyzeFault
  | missingApiKey
  | emptyHistory
deriving DecidableEq

/-- JS `apiKey || process.env.API_KEY` (the empty string is falsy), feeding the
missing-key check of `getAI`. -/
def jsKey (apiKey envKey : Option String) : Option String :=
  match apiKey with
  | some k => if k = "" then envKey else some k
  | none => envKey

/-- The Thai error narrative of the catch-all fallback in `analyzeMarketData`. -/
def fallbackSummary : String :=
  "ไม่สามารถเชื่อมต่อ AI ได้ หรือ API Key ไม่ถูกต้อง โปรดตรวจสอบ Key และลองใหม่อีกครั้ง"

/-- The Thai recommendation of the catch-all fallback in `analyzeMarketData`. -/
def fallbackRecommendation : String :=
  "ชะลอการซื้อขายจนกว่าข้อมูลจะกลับมาเป็นปกติ"

/-- The neutral fallback analysis built in the catch block of
`analyzeMarketData`, with the basis computed locally from the latest point. -/
def fallbackAnalysis (basis : Rat) : MarketAnalysis :=
  { sentiment := .NEUTRAL, confidence := 0, summary := fallbackSummary,
    recommendation := fallbackRecommendation, basis := basis, oiTrend := .STABLE,
    priceTrend := .STABLE, support := "-", resistance := "-", sourceUrls := [] }

/-- `analyzeMarketData` of `geminiService.ts`. `getAI` runs before the
try-block and throws when `apiKey || process.env.API_KEY` is JS-falsy: absent
or the empty string, from either branch; so such a key rejects to the caller.
Reading the latest point of an empty history also faults before the try-block.
Inside the try-block every remote failure (rejection, empty text, malformed
structured response) is caught and converted to the neutral fallback; a parsed
analysis gets the citations attached. -/
def analyzeMarketData (data : List MarketDataPoint) (sources : List SourceRef)
    (apiKey envKey _userQuestion : Option String) (env : AnalyzeEnv) :
    Except AnalyzeFault MarketAnalysis :=
  match jsKey apiKey envKey with
  | none => .error .missingApiKey
  | some k =>
    if k = "" then .error .missingApiKey
    else
      match data.getLast? with
      | none => .error .emptyHistory
      | some latest =>
        match env with
        | .returns a => .ok { a with sourceUrls := sources }
        | _ => .ok (fallbackAnalysis (latest.futurePrice - latest.spotPrice))

/-- #C5 counterexample: with the App's initial empty-string key and no ambient
key, `analyzeMarketData` rejects to its caller instead of returning the neutral
fallback: `getAI` throws before the try-block. -/
theorem claim5_counterexample :
    analyzeMarketData [p0] [] (some "") none none .throwsRemote
      = .error .missingApiKey := rfl

/-- #C5 amended: whenever a nonempty credential is available (the effective
key `apiKey || API_KEY` is a nonempty string) and the series is nonempty,
`analyzeMarketData` never rejects: any remote failure, empty response or
malformed response yields the fallback result (sentiment NEUTRAL, confidence 0,
the Thai error narrative, basis computed locally from the latest point), and a
parsed analysis is returned with the citations attached; but when the effective
key is absent or empty the error propagates to the caller, since the key check
runs before the try-block. -/
theorem claim5_amended_fallback (data : List MarketDataPoint) (sources : List SourceRef)
    (apiKey envKey uq : Option String) (env : AnalyzeEnv)
    (latest : MarketDataPoint) (k : String)
    (hk : jsKey apiKey envKey = some k) (hk2 : k ≠ "")
    (hd : data.getLast? = some latest) :
    (∀ a : MarketAnalysis, env = .returns a →
      analyzeMarketData data sources apiKey envKey uq env
        = .ok { a with sourceUrls := sources })
    ∧ ((∀ a : MarketAnalysis, env ≠ .returns a) →
      analyzeMarketData data sources apiKey envKey uq env
        = .ok (fallbackAnalysis (latest.futurePrice - latest.spotPrice)))
    ∧ (∀ b : Rat, (fallbackAnalysis b).sentiment = .NEUTRAL
        ∧ (fallbackAnalysis b).confidence = 0
        ∧ (fallbackAnalysis b).basis = b
        ∧ (fallbackAnalysis b).oiTrend = .STABLE
        ∧ (fallbackAnalysis b).priceTrend = .STABLE
        ∧ (fallbackAnalysis b).summary = fallbackSummary
        ∧ (fallbackAnalysis b).sourceUrls = [])
    ∧ (∀ (d2 : List MarketDataPoint) (s2 : List SourceRef) (ak ek u2 : Option String)
        (e2 : AnalyzeEnv), jsKey ak ek = none ∨ jsKey ak ek = some "" →
        analyzeMarketData d2 s2 ak ek u2 e2 = .error .missingApiKey) := by
  refine ⟨?_, ?_, ?_, ?_⟩
  · rintro a rfl
    simp only [analyzeMarketData, hk, hd]
    rw [if_neg hk2]
  · intro hne
    simp only [analyzeMarketData, hk, hd]
    rw [if_neg hk2]
  · intro b
    exact ⟨rfl, rfl, rfl, rfl, rfl, rfl, rfl⟩
  · intro d2 s2 ak ek u2 e2 h
    cases h with
    | inl h =>
      unfold analyzeMarketData
      rw [h]
    | inr h =>
      unfold analyzeMarketData
      rw [h]
      rfl

/-- #C5 witness: the amended fallback property on a concrete one-point series
with a present key and a rejecting remote call. -/
theorem claim5_witness :
    analyzeMarketData [p0] [] (some "k") none none .throwsRemote
      = .ok (fallbackAnalysis (p0.futurePrice - p0.spotPrice)) :=
  (claim5_amended_fallback [p0] [] (some "k") none none .throwsRemote p0 "k"
      rfl (by decide) rfl).2.1 (fun _ h => AnalyzeEnv.noConfusion h)

/-- An option-chain entry `OptionSeries` of `types.ts`. -/
structure OptionSeries where
  expiry : String
  code : Option String
  callOI : Int
  putOI : Int
deriving DecidableEq

/-- Refresh-cycle status `AnalysisStatus` of `types.ts`. -/
inductive AnalysisStatus
  | IDLE
  | LOADING
  | SUCCESS
  | ERROR
deriving DecidableEq

/-- Data-source mode `DataSourceMode` of `types.ts`. -/
inductive DataSourceMode
  | SIMULATION
  | LIVE_SEARCH
deriving DecidableEq

/-- The shared React state of `App.tsx` touched by the refresh machinery. -/
structure AppState where
  data : List MarketDataPoint
  optionData : List OptionSeries
  analysis : Option MarketAnalysis
  analysisStatus : AnalysisStatus
  dataMode : DataSourceMode
  isDataLoading : Bool
  isAutoUpdate : Bool
  nextUpdateCountdown : Int
deriving DecidableEq

/-- Outcome of one `fetchRealTimeMarketData` call, pinned when the call is
issued: it either rejects, or resolves with a data point, an option chain and
grounding citations. -/
inductive FetchOutcome
  | fail
  | ok (dp : MarketDataPoint) (opts : List OptionSeries) (srcs : List SourceRef)
deriving DecidableEq

/-- Outcome of one awaited `analyzeMarketData` call: it rejects (e.g. missing
key) or resolves with an analysis. -/
inductive AnalyzeOutcome
  | throws
  | returns (a : MarketAnalysis)
deriving DecidableEq

/-- One in-flight asynchronous invocation, suspended at an await point:
a `fetchLiveValues` run waiting on its fetch, a `fetchLiveValues` run waiting
on its analyze call, or a simulated-mode manual analysis waiting on its analyze
call (the `.then` without `.catch` in `handleManualRefresh`). -/
inductive ProcPhase
  | awaitFetch (f : FetchOutcome) (a : AnalyzeOutcome)
  | awaitAnalyze (a : AnalyzeOutcome)
  | awaitAnalyzeSim (a : AnalyzeOutcome)
deriving DecidableEq

/-- The whole interleaving state: the shared React state plus the list of
in-flight asynchronous invocations in start order. -/
structure World where
  app : AppState
  inflight : List ProcPhase
deriving DecidableEq

/-- The synchronous prefix of `fetchLiveValues`: set the loading flag and the
LOADING status, then issue the fetch. -/
def startFetchState (s : AppState) : AppState :=
  { s with isDataLoading := true, analysisStatus := .LOADING }

/-- One auto-update tick (`App.tsx`, the 60-second interval): the interval
exists only in live mode with auto-update on, and its callback invokes
`fetchLiveValues()` unconditionally: there is no in-flight guard. -/
def applyTick (w : World) (f : FetchOutcome) (a : AnalyzeOutcome) : World :=
  if w.app.dataMode = .LIVE_SEARCH ∧ w.app.isAutoUpdate = true then
    { app := startFetchState w.app, inflight := w.inflight ++ [.awaitFetch f a] }
  else w

/-- `handleManualRefresh` of `App.tsx`: in live mode it invokes
`fetchLiveValues()`; in simulated mode it sets LOADING and calls
`analyzeMarketData(...).then(...)` with no rejection handler. Neither branch
checks any in-flight or LOADING guard. -/
def applyManualRefresh (w : World) (f : FetchOutcome) (a : AnalyzeOutcome) : World :=
  if w.app.dataMode = .LIVE_SEARCH then
    { app := startFetchState w.app, inflight := w.inflight ++ [.awaitFetch f a] }
  else
    { app := { w.app with analysisStatus := .LOADING },
      inflight := w.inflight ++ [.awaitAnalyzeSim a] }

/-- `toggleMode` of `App.tsx`: flip the mode, clear the analysis, reset the
status to IDLE and disable auto-update; entering live mode immediately triggers
one `fetchLiveValues` (the mode-change effect). In-flight promises keep
running: nothing cancels or re-checks them. -/
def applyToggleMode (w : World) (f : FetchOutcome) (a : AnalyzeOutcome) : World :=
  let newMode := if w.app.dataMode = .SIMULATION then DataSourceMode.LIVE_SEARCH
    else DataSourceMode.SIMULATION
  let s1 := { w.app with
    dataMode := newMode, analysis := none,
    analysisStatus := .IDLE, isAutoUpdate := false }
  if newMode = .LIVE_SEARCH then
    { app := startFetchState s1, inflight := w.inflight ++ [.awaitFetch f a] }
  else
    { app := s1, inflight := w.inflight }

/-- Resolution of the fetch awaited by in-flight invocation `i`: on rejection
the catch/finally of `fetchLiveValues` sets ERROR and clears the loading flag
without touching the series; on success the functional `setData` commits the
reconciled series against the current state (no mode or epoch is checked), the
option chain is replaced when nonempty, and the invocation suspends on its
analyze call. Reading the latest point of an empty series faults inside the
try-block and lands in the same catch. -/
def applyResolveFetch (w : World) (i : Nat) : World :=
  match w.inflight.get? i with
  | some (.awaitFetch f a) =>
    match f with
    | .fail =>
      { app := { w.app with analysisStatus := .ERROR, isDataLoading := false },
        inflight := w.inflight.eraseIdx i }
    | .ok dp opts _ =>
      if w.app.data.isEmpty then
        { app := { w.app with analysisStatus := .ERROR, isDataLoading := false },
          inflight := w.inflight.eraseIdx i }
      else
        { app := { w.app with
                   data := reconcile w.app.data dp,
                   optionData := if opts.isEmpty then w.app.optionData else opts },
          inflight := w.inflight.set i (.awaitAnalyze a) }
  | _ => w

/-- Resolution of the analyze call awaited by in-flight invocation `i`. For a
`fetchLiveValues` run: success stores the analysis, sets SUCCESS, resets the
countdown and clears the loading flag; rejection lands in the catch/finally
(ERROR, loading flag cleared). For a simulated-mode manual run: success stores
the analysis and sets SUCCESS; rejection is unhandled (`.then` without
`.catch`), so no state changes and the status stays as it was. -/
def applyResolveAnalyze (w : World) (i : Nat) : World :=
  match w.inflight.get? i with
  | some (.awaitAnalyze a) =>
    match a with
    | .throws =>
      { app := { w.app with analysisStatus := .ERROR, isDataLoading := false },
        inflight := w.inflight.eraseIdx i }
    | .returns res =>
      { app := { w.app with
                 analysis := some res, analysisStatus := .SUCCESS,
                 nextUpdateCountdown := 60, isDataLoading := false },
        inflight := w.inflight.eraseIdx i }
  | some (.awaitAnalyzeSim a) =>
    match a with
    | .throws => { app := w.app, inflight := w.inflight.eraseIdx i }
    | .returns res =>
      { app := { w.app with analysis := some res, analysisStatus := .SUCCESS },
        inflight := w.inflight.eraseIdx i }
  | _ => w

/-- The observable events of the refresh machinery. -/
inductive Event
  | tick (f : FetchOutcome) (a : AnalyzeOutcome)
  | manualRefresh (f : FetchOutcome) (a : AnalyzeOutcome)
  | toggleMode (f : FetchOutcome) (a : AnalyzeOutcome)
  | resolveFetch (i : Nat)
  | resolveAnalyze (i : Nat)
deriving DecidableEq

/-- One step of the single-threaded cooperative schedule. -/
def step (w : World) (e : Event) : World :=
  match e with
  | .tick f a => applyTick w f a
  | .manualRefresh f a => applyManualRefresh w f a
  | .toggleMode f a => applyToggleMode w f a
  | .resolveFetch i => applyResolveFetch w i
  | .resolveAnalyze i => applyResolveAnalyze w i

/-- A run of the machinery over a list of events. -/
def run (w : World) (es : List Event) : World :=
  es.foldl step w

/-- The refresh button of `AnalysisPanel.tsx` is disabled exactly while the
status is LOADING (`disabled={status === AnalysisStatus.LOADING}`). -/
def refreshButtonDisabled (s : AnalysisStatus) : Bool :=
  s = .LOADING

/-- Concrete sample analysis used in witnesses and counterexamples. -/
def aSample : MarketAnalysis :=
  { sentiment := .BULLISH, confidence := 80, summary := "s", recommendation := "r",
    basis := 12, oiTrend := .RISING, priceTrend := .RISING, support := "a",
    resistance := "b", sourceUrls := [] }

/-- Concrete successful fetch outcome used in witnesses and counterexamples. -/
def fOk : FetchOutcome := .ok dpLive [] []

/-- Concrete successful analyze outcome used in witnesses and counterexamples. -/
def aOk : AnalyzeOutcome := .returns aSample

/-- Concrete live-mode world with auto-update on and one stored point. -/
def liveWorld : World :=
  { app := {
      data := [p0], optionData := [], analysis := none, analysisStatus := .IDLE,
      dataMode := .LIVE_SEARCH, isDataLoading := false, isAutoUpdate := true,
      nextUpdateCountdown := 60 },
    inflight := [] }

/-- Concrete simulated-mode world with one stored point. -/
def simWorld : World :=
  { app := {
      data := [p0], optionData := [], analysis := none, analysisStatus := .IDLE,
      dataMode := .SIMULATION, isDataLoading := false, isAutoUpdate := false,
      nextUpdateCountdown := 60 },
    inflight := [] }

/-- The live world after one tick whose fetch is still pending and a mode
switch back to simulated: the fetch is in flight while the active mode is
SIMULATION. -/
def staleWorld : World :=
  run liveWorld [.tick fOk aOk, .toggleMode fOk aOk]

/-- #C2 counterexample: with auto-refresh running in live mode, a tick whose
asynchronous work has not completed (loading flag set, one invocation in
flight) does not cause the next tick to be skipped or queued: the second tick
starts a second concurrent invocation (two in flight), and resolving the
second invocation's fetch mutates the shared series while the first
invocation is still suspended, i.e. the two ticks' side effects interleave. -/
theorem claim2_counterexample :
    (run liveWorld [.tick fOk aOk]).app.isDataLoading = true
    ∧ (run liveWorld [.tick fOk aOk]).inflight.length = 1
    ∧ (run liveWorld [.tick fOk aOk, .tick fOk aOk]).inflight.length = 2
    ∧ (run liveWorld [.tick fOk aOk, .tick fOk aOk, .resolveFetch 1]).app.data
        ≠ (run liveWorld [.tick fOk aOk, .tick fOk aOk]).app.data
    ∧ (run liveWorld [.tick fOk aOk, .tick fOk aOk, .resolveFetch 1]).inflight.get? 0
        = some (.awaitFetch fOk aOk) := by decide

/-- #C2 amended: ticks are not serialized: whenever the auto-update interval is
active (live mode, auto-update on) a tick starts a new `fetchLiveValues`
invocation unconditionally, regardless of the loading flag or of any
invocation already in flight: there is no in-flight guard, so overlapping
ticks' mutations of the shared series/analysis state can interleave. -/
theorem claim2_amended_no_tick_guard (w : World) (f : FetchOutcome) (a : AnalyzeOutcome)
    (hm : w.app.dataMode = .LIVE_SEARCH) (ha : w.app.isAutoUpdate = true) :
    step w (.tick f a)
      = { app := startFetchState w.app, inflight := w.inflight ++ [.awaitFetch f a] }
    ∧ (step w (.tick f a)).inflight.length = w.inflight.length + 1
    ∧ (step w (.tick f a)).app.isDataLoading = true := by
  have h1 : step w (.tick f a)
      = { app := startFetchState w.app, inflight := w.inflight ++ [.awaitFetch f a] } := by
    show applyTick w f a = _
    unfold applyTick
    rw [if_pos ⟨hm, ha⟩]
  refine ⟨h1, ?_, ?_⟩
  · rw [h1]; simp
  · rw [h1]; rfl

/-- #C2 witness: the unguarded tick evaluated on the concrete live world. -/
theorem claim2_witness :
    step liveWorld (.tick fOk aOk)
      = { app := startFetchState liveWorld.app,
          inflight := liveWorld.inflight ++ [.awaitFetch fOk aOk] }
    ∧ (step liveWorld (.tick fOk aOk)).inflight.length = liveWorld.inflight.length + 1
    ∧ (step liveWorld (.tick fOk aOk)).app.isDataLoading = true :=
  claim2_amended_no_tick_guard liveWorld fOk aOk rfl rfl

/-- #C3 counterexample: after switching from live to simulated mode while a
fetch is in flight, the resolving fetch is still applied: in the concrete
stale world the active mode is SIMULATION, one fetch is pending, and resolving
it changes the stored series. -/
theorem claim3_counterexample :
    staleWorld.app.dataMode = .SIMULATION
    ∧ staleWorld.inflight.length = 1
    ∧ (step staleWorld (.resolveFetch 0)).app.data ≠ staleWorld.app.data := by decide

/-- #C3 amended: no epoch or active-mode guard exists: whenever an in-flight
`fetchLiveValues` invocation's fetch resolves successfully against a nonempty
stored series, the reconciled result is committed to the series regardless of
the currently active mode, which the resolution leaves untouched. -/
theorem claim3_amended_stale_applied (w : World) (i : Nat) (dp : MarketDataPoint)
    (opts : List OptionSeries) (srcs : List SourceRef) (a : AnalyzeOutcome)
    (hp : w.inflight.get? i = some (.awaitFetch (.ok dp opts srcs) a))
    (hd : w.app.data ≠ []) :
    (step w (.resolveFetch i)).app.data = reconcile w.app.data dp
    ∧ (step w (.resolveFetch i)).app.dataMode = w.app.dataMode := by
  have hde : w.app.data.isEmpty = false := by
    cases h : w.app.data with
    | nil => exact absurd h hd
    | cons x xs => rfl
  have h1 : step w (.resolveFetch i)
      = { app := { w.app with
                   data := reconcile w.app.data dp,
                   optionData := if opts.isEmpty then w.app.optionData else opts },
          inflight := w.inflight.set i (.awaitAnalyze a) } := by
    show applyResolveFetch w i = _
    unfold applyResolveFetch
    rw [hp]
    simp [hde]
  rw [h1]
  exact ⟨rfl, rfl⟩

/-- #C3 witness: the unguarded commit evaluated on the concrete stale world. -/
theorem claim3_witness :
    (step staleWorld (.resolveFetch 0)).app.data = reconcile staleWorld.app.data dpLive
    ∧ (step staleWorld (.resolveFetch 0)).app.dataMode = staleWorld.app.dataMode :=
  claim3_amended_stale_applied staleWorld 0 dpLive [] [] aOk (by decide) (by decide)

/-- #C6: when the fetch of a live refresh cycle fails, the cycle's status runs
IDLE, then LOADING, then ERROR; the stored series is unchanged from its
pre-cycle value (no partial point is committed); the loading flag is cleared;
the mode, the auto-update flag and the in-flight list are restored; and the
scheduler keeps running: a subsequent tick still starts a new cycle. -/
theorem claim6_fetch_failure_safe (w : World) (a : AnalyzeOutcome)
    (f2 : FetchOutcome) (a2 : AnalyzeOutcome)
    (hm : w.app.dataMode = .LIVE_SEARCH) (hau : w.app.isAutoUpdate = true)
    (hs : w.app.analysisStatus = .IDLE) (hi : w.inflight = []) :
    w.app.analysisStatus = .IDLE
    ∧ (step w (.tick .fail a)).app.analysisStatus = .LOADING
    ∧ (run w [.tick .fail a, .resolveFetch 0]).app.analysisStatus = .ERROR
    ∧ (run w [.tick .fail a, .resolveFetch 0]).app.data = w.app.data
    ∧ (run w [.tick .fail a, .resolveFetch 0]).app.isDataLoading = false
    ∧ (run w [.tick .fail a, .resolveFetch 0]).app.dataMode = w.app.dataMode
    ∧ (run w [.tick .fail a, .resolveFetch 0]).app.isAutoUpdate = w.app.isAutoUpdate
    ∧ (run w [.tick .fail a, .resolveFetch 0]).inflight = []
    ∧ (step (run w [.tick .fail a, .resolveFetch 0]) (.tick f2 a2)).inflight.length = 1 := by
  have h1 : step w (.tick .fail a)
      = { app := startFetchState w.app, inflight := [.awaitFetch .fail a] } := by
    show applyTick w .fail a = _
    unfold applyTick
    rw [if_pos ⟨hm, hau⟩, hi]
    rfl
  have hrun : run w [.tick .fail a, .resolveFetch 0]
      = step (step w (.tick .fail a)) (.resolveFetch 0) := rfl
  have h2 : run w [.tick .fail a, .resolveFetch 0]
      = { app := { w.app with analysisStatus := .ERROR, isDataLoading := false },
          inflight := [] } := by
    rw [hrun, h1]
    rfl
  have h3 : step (run w [.tick .fail a, .resolveFetch 0]) (.tick f2 a2)
      = { app := startFetchState (run w [.tick .fail a, .resolveFetch 0]).app,
          inflight := (run w [.tick .fail a, .resolveFetch 0]).inflight
            ++ [.awaitFetch f2 a2] } := by
    show applyTick _ f2 a2 = _
    unfold applyTick
    rw [if_pos]
    rw [h2]
    exact ⟨hm, hau⟩
  refine ⟨hs, by rw [h1]; rfl, by rw [h2], by rw [h2], by rw [h2],
    by rw [h2], by rw [h2], by rw [h2], ?_⟩
  rw [h3, h2]
  rfl

/-- #C6 witness: the fetch-failure safety evaluated on the concrete live
world. -/
theorem claim6_witness :
    liveWorld.app.analysisStatus = .IDLE
    ∧ (step liveWorld (.tick .fail aOk)).app.analysisStatus = .LOADING
    ∧ (run liveWorld [.tick .fail aOk, .resolveFetch 0]).app.analysisStatus = .ERROR
    ∧ (run liveWorld [.tick .fail aOk, .resolveFetch 0]).app.data = liveWorld.app.data
    ∧ (run liveWorld [.tick .fail aOk, .resolveFetch 0]).app.isDataLoading = false
    ∧ (run liveWorld [.tick .fail aOk, .resolveFetch 0]).app.dataMode = liveWorld.app.dataMode
    ∧ (run liveWorld [.tick .fail aOk, .resolveFetch 0]).app.isAutoUpdate
        = liveWorld.app.isAutoUpdate
    ∧ (run liveWorld [.tick .fail aOk, .resolveFetch 0]).inflight = []
    ∧ (step (run liveWorld [.tick .fail aOk, .resolveFetch 0]) (.tick fOk aOk)).inflight.length
        = 1 :=
  claim6_fetch_failure_safe liveWorld aOk fOk aOk rfl rfl rfl rfl

/-- #C10 counterexample: a stuck cycle does permanently block manual refresh
through the UI: in simulated mode a manual refresh whose analyze call rejects
leaves the status LOADING forever (the rejection is unhandled), nothing
remains in flight, and the refresh button is disabled exactly in that state. -/
theorem claim10_counterexample :
    (run simWorld [.manualRefresh fOk .throws]).app.analysisStatus = .LOADING
    ∧ (run simWorld [.manualRefresh fOk .throws, .resolveAnalyze 0]).app.analysisStatus
        = .LOADING
    ∧ (run simWorld [.manualRefresh fOk .throws, .resolveAnalyze 0]).inflight = []
    ∧ refreshButtonDisabled
        (run simWorld [.manualRefresh fOk .throws, .resolveAnalyze 0]).app.analysisStatus
        = true := by decide

/-- #C10 amended: the `handleManualRefresh` handler itself force-starts a new
cycle in either mode with no in-flight or LOADING guard, but the UI refresh
button that invokes it is disabled exactly while the status is LOADING, so a
cycle stuck in LOADING does block further manual refreshes from the UI. -/
theorem claim10_amended_manual_refresh :
    (∀ (w : World) (f : FetchOutcome) (a : AnalyzeOutcome),
      (step w (.manualRefresh f a)).inflight.length = w.inflight.length + 1)
    ∧ (∀ s : AnalysisStatus, refreshButtonDisabled s = true ↔ s = .LOADING) := by
  constructor
  · intro w f a
    show (applyManualRefresh w f a).inflight.length = _
    unfold applyManualRefresh
    by_cases h : w.app.dataMode = .LIVE_SEARCH
    · rw [if_pos h]; simp
    · rw [if_neg h]; simp
  · intro s
    cases s <;> simp [refreshButtonDisabled]

end MarketSeries
